import Mathlib

/-!
Shallow embedding of the API server core of the `eliot` fragment
(`pkg/api/server.go`, `pkg/api/interface.go`, `state/console.go`):
the pod-creation pipeline with its progress broadcaster, the attach
stream multiplexer with its metadata validation, and the signal
dispatcher.  Pure Go data is embedded as Lean structures; the opaque
runtime capability provider (`runtime.Client`) is a record of oracle
functions; provider side effects are made observable as an explicit
call trace, and the broadcaster goroutine is a trace-consuming loop.
-/

namespace Eliot

/-- One container of a pod specification (internal model `ContainerSpec`:
`{name, image reference}`; the tty flag is not consumed by the embedded
operations). -/
structure ContainerSpec where
  name : String
  image : String
  deriving DecidableEq, Repr

/-- A pod: namespace from `pod.Metadata.Namespace` and the ordered container
list from `pod.Spec.Containers`. -/
structure Pod where
  namespaceName : String
  containers : List ContainerSpec
  deriving DecidableEq, Repr

/-- Modelled from the spec: `progress.ImageFetch` (package
`pkg/progress` is not under `src/`).  The spec's ImageFetchProgress is
`{container name, image reference, completion flag, optional counters}`;
`NewImageFetch(name, image)` starts with the completion flag unset and
`AllDone()` sets it.  The optional byte/step counters play no role in any
claim and are omitted. -/
structure ImageFetch where
  containerName : String
  image : String
  done : Bool
  deriving DecidableEq, Repr

/-- Modelled from the spec: the wire-model view of one image fetch produced
by `mapping.MapImageFetchProgressToAPIModel` (package `pkg/api/mapping` is
not under `src/`); per the spec the mapping layer is an order- and
content-preserving translation of the progress records. -/
structure ImageFetchAPI where
  containerName : String
  image : String
  done : Bool
  deriving DecidableEq, Repr

/-- Modelled from the spec: `mapping.MapImageFetchProgressToAPIModel`, the
order-preserving per-record translation of the tracker snapshot into the
wire model. -/
def mapImageFetchProgressToAPIModel (l : List ImageFetch) : List ImageFetchAPI :=
  l.map (fun f => ⟨f.containerName, f.image, f.done⟩)

/-- Modelled from the spec: the three logical byte channels the attach
multiplexer hands to the capability provider.  `stream.NewReader(server)`
(package `pkg/api/stream` is not under `src/`) wraps the duplex stream as
the one byte source; `stream.NewWriter(server, flag)` wraps it as a byte
sink whose outbound frames are tagged by the boolean discriminator `flag`
(true marks the process-error channel). -/
inductive StreamChannel where
  | reader
  | writer (stderrFlag : Bool)
  deriving DecidableEq, Repr

/-- The `runtime.AttachIO` bundle passed to the provider's attach primitive:
`{Stdin, Stdout, Stderr}`. -/
structure AttachIO where
  Stdin : StreamChannel
  Stdout : StreamChannel
  Stderr : StreamChannel
  deriving DecidableEq, Repr

/-- One call made against the opaque runtime capability provider
(`runtime.Client`).  The embedding records provider interactions as an
explicit trace so that "the provider was (not) invoked" is observable. -/
inductive ProviderCall where
  | pullImage (namespaceName image : String)
  | createContainer (pod : Pod) (container : ContainerSpec)
  | attach (namespaceName containerID : String) (streams : AttachIO)
  | signal (namespaceName containerID : String) (signalValue : Int)
  deriving DecidableEq, Repr

/-- The opaque runtime capability provider (`runtime.Client`), embedded as
oracle functions: `none` is a nil Go error, `some e` a failure with
message `e`. -/
structure Client where
  pullImage : String → String → Option String
  createContainer : Pod → ContainerSpec → Option String
  attach : String → String → AttachIO → Option String
  signal : String → String → Int → Option String

/-- The error returned by `Server.Create`: `errors.Wrapf` with the format
"Failed to pull image [%s]" around the pull error, or
"Failed to create container [%s]" around the create error. -/
inductive CreateErr where
  | pullFailed (image cause : String)
  | createFailed (containerName cause : String)
  deriving DecidableEq, Repr

/-- Terminal observation of the creation pipeline: the tracker contents
(`progresses`), the provider calls made, and `Server.Create`'s return
value (`none` = nil). -/
structure PipelineResult where
  progresses : List ImageFetch
  calls : List ProviderCall
  result : Option CreateErr
  deriving Repr

/-- The `for _, container := range pod.Spec.Containers` loop of
`Server.Create`.  For each container it appends a fresh `ImageFetch`
(completion flag unset), pulls the image (returning the wrapped error on
failure), marks the appended record done via `AllDone`, creates the
container (returning the wrapped error on failure), and continues.  The
Go code mutates the appended record in place; here each record carries
the completion flag it has when the loop returns, which is the identical
terminal tracker state since records are never touched again. -/
def createStep (c : Client) (pod : Pod) : List ContainerSpec → PipelineResult
  | [] => ⟨[], [], none⟩
  | ct :: rest =>
    match c.pullImage pod.namespaceName ct.image with
    | some e =>
      ⟨[⟨ct.name, ct.image, false⟩],
       [.pullImage pod.namespaceName ct.image],
       some (.pullFailed ct.image e)⟩
    | none =>
      match c.createContainer pod ct with
      | some e =>
        ⟨[⟨ct.name, ct.image, true⟩],
         [.pullImage pod.namespaceName ct.image, .createContainer pod ct],
         some (.createFailed ct.name e)⟩
      | none =>
        let r := createStep c pod rest
        ⟨⟨ct.name, ct.image, true⟩ :: r.progresses,
         .pullImage pod.namespaceName ct.image :: .createContainer pod ct :: r.calls,
         r.result⟩

/-- One event delivered to the broadcaster goroutine's `select`: a 100 ms
timer tick carrying the tracker state it samples and the outcome of the
`server.Send` attempt, or the closing of the `done` channel carrying the
outcome of the final `server.Send`. -/
inductive BroadcastEvent where
  | tick (sampled : List ImageFetch) (sendErr : Option String)
  | done (sendErr : Option String)
  deriving DecidableEq, Repr

/-- Whether a broadcast event is the termination signal. -/
def BroadcastEvent.isDone : BroadcastEvent → Bool
  | .done _ => true
  | .tick _ _ => false

/-- One `server.Send` attempt by the broadcaster: the snapshot payload and
the send outcome (`none` = delivered, `some e` = failed, logged and
swallowed by the goroutine). -/
structure Emission where
  payload : List ImageFetchAPI
  sendErr : Option String
  deriving DecidableEq, Repr

/-- The broadcaster goroutine of `Server.Create`, as a function of the
event trace it observes.  On a timer tick it maps the sampled tracker
state to the wire model and sends it (a send failure is only logged — the
loop continues); on the `done` signal it sends one final snapshot of the
terminal tracker state and returns, consuming nothing further. -/
def broadcasterRun (terminal : List ImageFetch) : List BroadcastEvent → List Emission
  | [] => []
  | .done e :: _ => [⟨mapImageFetchProgressToAPIModel terminal, e⟩]
  | .tick s e :: rest =>
    ⟨mapImageFetchProgressToAPIModel s, e⟩ :: broadcasterRun terminal rest

/-- Observable outcome of one `Server.Create` call: the broadcaster's send
attempts, the call's return value, and how many times the termination
signal fired. -/
structure CreateExec where
  emissions : List Emission
  result : Option CreateErr
  doneSignals : Nat
  deriving Repr

/-- `Server.Create`: runs the pipeline over the pod's containers while the
broadcaster observes `ticks` (each a sampled tracker state with a send
outcome) followed by the termination signal.  `defer close(done)` runs
exactly once, on the error returns and on the nil return alike, so the
trace ends with exactly one `done` event (whose final send outcome is
`finalSendErr`) and `doneSignals` is 1 by construction. -/
def createCall (c : Client) (pod : Pod)
    (ticks : List (List ImageFetch × Option String))
    (finalSendErr : Option String) : CreateExec :=
  let r := createStep c pod pod.containers
  { emissions :=
      broadcasterRun r.progresses
        (ticks.map (fun t => .tick t.1 t.2) ++ [.done finalSendErr])
    result := r.result
    doneSignals := 1 }

/-- The incoming gRPC metadata `metadata.MD`: a finite map from keys to
lists of string values, embedded as an association list with unique keys
looked up by first match. -/
abbrev MD : Type := List (String × List String)

/-- Lookup in the metadata map (`md[key]` with its `ok` flag). -/
def mdLookup (md : MD) (key : String) : Option (List String) :=
  List.lookup key md

/-- `getMetadataValue`: returns `md[key][0]` when the key is present and
the empty string when it is absent.  Go's `val[0]` on an empty slice
panics (index out of range); the panic is embedded as `none`. -/
def getMetadataValue (md : MD) (key : String) : Option String :=
  match mdLookup md key with
  | some val => val.head?
  | none => some ""

/-- Observable outcome of one `Server.Attach` call: a runtime panic, an
error returned before the provider is touched, or a provider attach
invocation (with the channels it was handed) whose result is returned
unchanged. -/
inductive AttachOutcome where
  | panic
  | err (msg : String)
  | attached (namespaceName containerID : String) (streams : AttachIO)
      (ret : Option String)
  deriving DecidableEq, Repr

/-- How many times an attach call invoked the provider's attach primitive. -/
def AttachOutcome.providerCalls : AttachOutcome → Nat
  | .attached _ _ _ _ => 1
  | _ => 0

/-- Whether an attach call returned an error value to the caller. -/
def AttachOutcome.isErr : AttachOutcome → Bool
  | .err _ => true
  | _ => false

/-- The `Server.Attach` error message for a request without metadata. -/
def noMetadataMsg : String :=
  "Incoming attach request don't have metadata. You must provide 'Namespace' and 'ContainerID' through metadata"

/-- The `Server.Attach` error message for an empty namespace. -/
def namespaceRequiredMsg : String :=
  "You must define 'namespace' metadata"

/-- The `Server.Attach` error message for an empty container id. -/
def containerRequiredMsg : String :=
  "You must define 'container' metadata"

/-- `Server.Attach`: reads the incoming metadata (`md = none` embeds
`metadata.FromIncomingContext` reporting no metadata), extracts the
`namespace` and `container` values with `getMetadataValue` (both
assignments run before either emptiness check, so a panic in either
lookup preempts the checks, as in the Go code), rejects empty values, and
otherwise calls the provider's attach primitive with one stream reader
and two boolean-tagged stream writers, returning its result directly. -/
def attachServer (md : Option MD) (c : Client) : AttachOutcome :=
  match md with
  | none => .err noMetadataMsg
  | some md =>
    match getMetadataValue md "namespace", getMetadataValue md "container" with
    | some namespaceName, some containerID =>
      if namespaceName = "" then .err namespaceRequiredMsg
      else if containerID = "" then .err containerRequiredMsg
      else
        let streams : AttachIO := ⟨.reader, .writer false, .writer true⟩
        .attached namespaceName containerID streams
          (c.attach namespaceName containerID streams)
    | _, _ => .panic

/-- Observable outcome of one `Server.Signal` call: the provider calls
made and the error returned to the caller (`none` = the empty
`SignalResponse`). -/
structure SignalExec where
  calls : List ProviderCall
  error : Option String
  deriving Repr

/-- `Server.Signal`: converts the numeric request value with
`syscall.Signal(req.Signal)` — a Go type conversion that leaves the value
unchanged — forwards namespace, container id and signal to the provider,
and returns the provider's error as is (`return nil, err`). -/
def serverSignal (c : Client) (namespaceName containerID : String)
    (signalValue : Int) : SignalExec :=
  { calls := [.signal namespaceName containerID signalValue]
    error := c.signal namespaceName containerID signalValue }

/-- Modelled from the spec: the set of recognized OS signal numbers
(the spec's Signal contract validates that the numeric value "maps to a
recognized OS signal" but names no list; Linux signals, real-time
included, occupy 1..64). -/
def recognizedSignal (s : Int) : Bool :=
  1 ≤ s && s ≤ 64

/-- A provider whose every operation succeeds; used to evaluate the server
operations at concrete inputs. -/
def okClient : Client :=
  { pullImage := fun _ _ => none
    createContainer := fun _ _ => none
    attach := fun _ _ _ => none
    signal := fun _ _ _ => none }

/-- A container spec succeeds for a client and pod when both its pull and
its create return nil. -/
def succeedsOn (c : Client) (pod : Pod) (ct : ContainerSpec) : Prop :=
  c.pullImage pod.namespaceName ct.image = none ∧ c.createContainer pod ct = none

/-- The tracker entries a list of fully processed containers leaves behind:
one completed record per container, in declaration order. -/
def doneEntries (l : List ContainerSpec) : List ImageFetch :=
  l.map (fun ct => ⟨ct.name, ct.image, true⟩)

/-- The provider calls a list of fully processed containers generates:
a pull then a create per container, in declaration order. -/
def callsOf (pod : Pod) (l : List ContainerSpec) : List ProviderCall :=
  l.flatMap (fun ct =>
    [.pullImage pod.namespaceName ct.image, .createContainer pod ct])

/-- A one-container pod used for concrete evaluations. -/
def pod1 : Pod := ⟨"ns1", [⟨"c1", "i1"⟩]⟩

/-- A three-container pod used for concrete evaluations. -/
def pod3 : Pod := ⟨"ns1", [⟨"c1", "i1"⟩, ⟨"c2", "i2"⟩, ⟨"c3", "i3"⟩]⟩

/-- A provider whose every image pull fails. -/
def pullFailClient : Client :=
  { okClient with pullImage := fun _ _ => some "boom" }

/-- A provider for which only the pull of image "i2" fails. -/
def pullI2FailClient : Client :=
  { okClient with
    pullImage := fun _ img => if img = "i2" then some "boom" else none }

instance (c : Client) (pod : Pod) (ct : ContainerSpec) :
    Decidable (succeedsOn c pod ct) :=
  inferInstanceAs (Decidable (_ = _ ∧ _ = _))

/-- A prefix of containers that all succeed contributes its completed
entries and its pull/create calls and hands control to the rest of the
list. -/
theorem createStep_append_of_succeeds (c : Client) (pod : Pod)
    (pre rest : List ContainerSpec) (hpre : ∀ x ∈ pre, succeedsOn c pod x) :
    createStep c pod (pre ++ rest) =
      ⟨doneEntries pre ++ (createStep c pod rest).progresses,
       callsOf pod pre ++ (createStep c pod rest).calls,
       (createStep c pod rest).result⟩ := by
  induction pre with
  | nil => simp [doneEntries, callsOf]
  | cons ct pre ih =>
    obtain ⟨hp, hc⟩ := hpre ct (List.mem_cons_self ct pre)
    have ih' := ih (fun x hx => hpre x (List.mem_cons_of_mem ct hx))
    simp only [List.cons_append, createStep, hp, hc, List.append_eq, ih',
      doneEntries, callsOf, List.map_cons, List.flatMap_cons, List.nil_append,
      List.append_assoc, List.cons_append]

/-- A run in which every container's pull and create succeed completes
every entry, calls pull then create for each container in order, and
returns nil. -/
theorem createStep_all_success (c : Client) (pod : Pod)
    (l : List ContainerSpec) (h : ∀ x ∈ l, succeedsOn c pod x) :
    createStep c pod l = ⟨doneEntries l, callsOf pod l, none⟩ := by
  have := createStep_append_of_succeeds c pod l [] h
  simpa [createStep, doneEntries, callsOf] using this

/-- Characterisation of the pipeline at its first failure: with a fully
succeeding prefix `pre` and a failing container `ct`, the run either
stops at the pull (incomplete entry for `ct`, no create call for `ct`,
wrapped pull error) or at the create (completed entry for `ct`, wrapped
create error); either way nothing of `post` is attempted or tracked. -/
theorem createStep_first_failure (c : Client) (pod : Pod)
    (pre : List ContainerSpec) (ct : ContainerSpec) (post : List ContainerSpec)
    (hpre : ∀ x ∈ pre, succeedsOn c pod x) (hfail : ¬ succeedsOn c pod ct) :
    (∃ e, c.pullImage pod.namespaceName ct.image = some e ∧
      createStep c pod (pre ++ ct :: post) =
        ⟨doneEntries pre ++ [⟨ct.name, ct.image, false⟩],
         callsOf pod pre ++ [.pullImage pod.namespaceName ct.image],
         some (.pullFailed ct.image e)⟩) ∨
    (∃ e, c.pullImage pod.namespaceName ct.image = none ∧
      c.createContainer pod ct = some e ∧
      createStep c pod (pre ++ ct :: post) =
        ⟨doneEntries pre ++ [⟨ct.name, ct.image, true⟩],
         callsOf pod pre ++ [.pullImage pod.namespaceName ct.image,
           .createContainer pod ct],
         some (.createFailed ct.name e)⟩) := by
  rw [createStep_append_of_succeeds c pod pre (ct :: post) hpre]
  match hp : c.pullImage pod.namespaceName ct.image with
  | some e =>
    exact Or.inl ⟨e, rfl, by simp [createStep, hp]⟩
  | none =>
    match hc : c.createContainer pod ct with
    | some e =>
      exact Or.inr ⟨e, rfl, rfl, by simp [createStep, hp, hc]⟩
    | none =>
      exact absurd ⟨hp, hc⟩ hfail

/-- A broadcaster that has not yet seen the termination signal emits one
snapshot per tick; the first `done` event triggers exactly one final
emission of the terminal tracker state and ends the loop, so every event
after it is ignored. -/
theorem broadcasterRun_no_done_append (terminal : List ImageFetch)
    (pre : List BroadcastEvent) (hpre : ∀ ev ∈ pre, ev.isDone = false)
    (e : Option String) (rest : List BroadcastEvent) :
    broadcasterRun terminal (pre ++ .done e :: rest) =
      broadcasterRun terminal pre ++
        [⟨mapImageFetchProgressToAPIModel terminal, e⟩] := by
  induction pre with
  | nil => simp [broadcasterRun]
  | cons ev pre ih =>
    match ev with
    | .done e' =>
      have hd := hpre (.done e') (List.mem_cons_self _ _)
      simp [BroadcastEvent.isDone] at hd
    | .tick s se =>
      have ih' := ih (fun x hx => hpre x (List.mem_cons_of_mem _ hx))
      simp only [List.cons_append, broadcasterRun, List.append_eq, ih']

/-- Evaluation of the broadcaster over a creation call's event trace:
one emission per tick, in order, plus the final emission of the terminal
tracker state. -/
theorem broadcasterRun_ticks (terminal : List ImageFetch)
    (ticks : List (List ImageFetch × Option String)) (fe : Option String) :
    broadcasterRun terminal (ticks.map (fun t => .tick t.1 t.2) ++ [.done fe]) =
      ticks.map (fun t => ⟨mapImageFetchProgressToAPIModel t.1, t.2⟩) ++
        [⟨mapImageFetchProgressToAPIModel terminal, fe⟩] := by
  induction ticks with
  | nil => simp [broadcasterRun]
  | cons t ticks ih => simp [broadcasterRun, ih]

/-- C2: on the first pull or create failure — container `ct`, every
container of the prefix `pre` succeeding — the pipeline stops
immediately: it returns a wrapped error carrying the failing image name
(pull failure) or the failing container name (create failure), the calls
made to the provider are exactly those for the prefix plus the failing
step (no remaining container is attempted), the tracker entries for the
prefix are exactly their completed records (their true status), and no
container after `ct` ever gains a tracker entry. -/
theorem create_stops_at_first_failure (c : Client) (pod : Pod)
    (pre : List ContainerSpec) (ct : ContainerSpec) (post : List ContainerSpec)
    (hcont : pod.containers = pre ++ ct :: post)
    (hpre : ∀ x ∈ pre, succeedsOn c pod x)
    (hfail : ¬ succeedsOn c pod ct) :
    (∃ e, c.pullImage pod.namespaceName ct.image = some e ∧
      createStep c pod pod.containers =
        ⟨doneEntries pre ++ [⟨ct.name, ct.image, false⟩],
         callsOf pod pre ++ [.pullImage pod.namespaceName ct.image],
         some (.pullFailed ct.image e)⟩) ∨
    (∃ e, c.pullImage pod.namespaceName ct.image = none ∧
      c.createContainer pod ct = some e ∧
      createStep c pod pod.containers =
        ⟨doneEntries pre ++ [⟨ct.name, ct.image, true⟩],
         callsOf pod pre ++ [.pullImage pod.namespaceName ct.image,
           .createContainer pod ct],
         some (.createFailed ct.name e)⟩) := by
  rw [hcont]
  exact createStep_first_failure c pod pre ct post hpre hfail

/-- Witness for C2 at a concrete input: in a three-container pod whose
second image fails to pull, the run stops after the second pull with the
completed first entry, the incomplete second entry, and the wrapped pull
error for image "i2". -/
theorem create_stops_at_first_failure_witness :
    (pod3.containers =
      [⟨"c1", "i1"⟩] ++ (⟨"c2", "i2"⟩ : ContainerSpec) :: [⟨"c3", "i3"⟩]) ∧
    ((∃ e, pullI2FailClient.pullImage pod3.namespaceName "i2" = some e ∧
      createStep pullI2FailClient pod3 pod3.containers =
        ⟨doneEntries [⟨"c1", "i1"⟩] ++ [⟨"c2", "i2", false⟩],
         callsOf pod3 [⟨"c1", "i1"⟩] ++ [.pullImage pod3.namespaceName "i2"],
         some (.pullFailed "i2" e)⟩) ∨
     (∃ e, pullI2FailClient.pullImage pod3.namespaceName "i2" = none ∧
      pullI2FailClient.createContainer pod3 ⟨"c2", "i2"⟩ = some e ∧
      createStep pullI2FailClient pod3 pod3.containers =
        ⟨doneEntries [⟨"c1", "i1"⟩] ++ [⟨"c2", "i2", true⟩],
         callsOf pod3 [⟨"c1", "i1"⟩] ++ [.pullImage pod3.namespaceName "i2",
           .createContainer pod3 ⟨"c2", "i2"⟩],
         some (.createFailed "c2" e)⟩)) :=
  ⟨rfl, create_stops_at_first_failure pullI2FailClient pod3
    [⟨"c1", "i1"⟩] ⟨"c2", "i2"⟩ [⟨"c3", "i3"⟩] rfl (by decide) (by decide)⟩

/-- C1 counterexample: with a single container whose pull fails (so
k = 1), the claim predicts a terminal tracker with entries only for
containers 1..k-1 and none for k..N — that is, no entries at all — but
the code appends the tracker entry before pulling, so the terminal
tracker holds one (incomplete) entry for container 1 while the returned
error does name image 1. -/
theorem create_failed_pull_tracker_counterexample :
    (createStep pullFailClient pod1 pod1.containers).progresses =
      [⟨"c1", "i1", false⟩] ∧
    (createStep pullFailClient pod1 pod1.containers).progresses ≠ [] ∧
    (createStep pullFailClient pod1 pod1.containers).result =
      some (.pullFailed "i1" "boom") :=
  ⟨rfl, by decide, rfl⟩

/-- C1 (amended): if container k fails at its pull or its create step
(containers 1..k-1 succeeding), the terminal tracker contains entries for
containers 1..k — the first k-1 completed, reflecting their true status,
and the k-th completed exactly when the failure was at the create step —
containers k+1..N have no entries, and Create returns an error naming
image k (pull failure) or container k (create failure). -/
theorem create_failure_tracker_state (c : Client) (pod : Pod)
    (pre : List ContainerSpec) (ct : ContainerSpec) (post : List ContainerSpec)
    (hcont : pod.containers = pre ++ ct :: post)
    (hpre : ∀ x ∈ pre, succeedsOn c pod x)
    (hfail : ¬ succeedsOn c pod ct) :
    (createStep c pod pod.containers).progresses.length = pre.length + 1 ∧
    (createStep c pod pod.containers).progresses.take pre.length =
      doneEntries pre ∧
    (∃ e,
      (c.pullImage pod.namespaceName ct.image = some e ∧
        (createStep c pod pod.containers).progresses.drop pre.length =
          [⟨ct.name, ct.image, false⟩] ∧
        (createStep c pod pod.containers).result =
          some (.pullFailed ct.image e)) ∨
      (c.createContainer pod ct = some e ∧
        (createStep c pod pod.containers).progresses.drop pre.length =
          [⟨ct.name, ct.image, true⟩] ∧
        (createStep c pod pod.containers).result =
          some (.createFailed ct.name e))) := by
  rw [hcont]
  have hlen : (doneEntries pre).length = pre.length := by simp [doneEntries]
  rcases createStep_first_failure c pod pre ct post hpre hfail with
    ⟨e, hp, hr⟩ | ⟨e, hp, hc2, hr⟩
  · rw [hr]
    refine ⟨by simp [hlen], ?_, e, Or.inl ⟨hp, ?_, rfl⟩⟩
    · rw [← hlen, List.take_left]
    · rw [← hlen, List.drop_left]
  · rw [hr]
    refine ⟨by simp [hlen], ?_, e, Or.inr ⟨hc2, ?_, rfl⟩⟩
    · rw [← hlen, List.take_left]
    · rw [← hlen, List.drop_left]

/-- Witness for the amended C1 at a concrete input: the three-container
pod whose second image fails to pull has two terminal tracker entries,
the first completed, the second incomplete, and the wrapped pull error
for image "i2". -/
theorem create_failure_tracker_state_witness :
    (createStep pullI2FailClient pod3 pod3.containers).progresses.length =
      [(⟨"c1", "i1"⟩ : ContainerSpec)].length + 1 ∧
    (createStep pullI2FailClient pod3 pod3.containers).progresses.take
        [(⟨"c1", "i1"⟩ : ContainerSpec)].length =
      doneEntries [⟨"c1", "i1"⟩] ∧
    (∃ e,
      (pullI2FailClient.pullImage pod3.namespaceName "i2" = some e ∧
        (createStep pullI2FailClient pod3 pod3.containers).progresses.drop
            [(⟨"c1", "i1"⟩ : ContainerSpec)].length =
          [⟨"c2", "i2", false⟩] ∧
        (createStep pullI2FailClient pod3 pod3.containers).result =
          some (.pullFailed "i2" e)) ∨
      (pullI2FailClient.createContainer pod3 ⟨"c2", "i2"⟩ = some e ∧
        (createStep pullI2FailClient pod3 pod3.containers).progresses.drop
            [(⟨"c1", "i1"⟩ : ContainerSpec)].length =
          [⟨"c2", "i2", true⟩] ∧
        (createStep pullI2FailClient pod3 pod3.containers).result =
          some (.createFailed "c2" e))) :=
  create_failure_tracker_state pullI2FailClient pod3
    [⟨"c1", "i1"⟩] ⟨"c2", "i2"⟩ [⟨"c3", "i3"⟩] rfl (by decide) (by decide)

/-- C3: when every pull and every create of the pod succeeds, Create
returns nil and the final snapshot — the one sent after the termination
signal — holds exactly one entry per container, each marked complete, in
declared container order. -/
theorem create_all_success_terminal_snapshot (c : Client) (pod : Pod)
    (ticks : List (List ImageFetch × Option String)) (fe : Option String)
    (h : ∀ x ∈ pod.containers, succeedsOn c pod x) :
    (createCall c pod ticks fe).result = none ∧
    (createCall c pod ticks fe).emissions.getLast? =
      some ⟨pod.containers.map (fun ct => ⟨ct.name, ct.image, true⟩), fe⟩ := by
  have hstep := createStep_all_success c pod pod.containers h
  constructor
  · simp [createCall, hstep]
  · simp only [createCall, hstep, broadcasterRun_ticks]
    rw [List.getLast?_concat]
    simp [mapImageFetchProgressToAPIModel, doneEntries, List.map_map,
      Function.comp]

/-- Witness for C3 at a concrete input: the three-container pod under the
always-succeeding provider returns nil and its final snapshot lists the
three completed entries in order. -/
theorem create_all_success_terminal_snapshot_witness :
    (createCall okClient pod3 [([], some "late client")] none).result = none ∧
    (createCall okClient pod3 [([], some "late client")] none).emissions.getLast? =
      some ⟨pod3.containers.map (fun ct => ⟨ct.name, ct.image, true⟩), none⟩ :=
  create_all_success_terminal_snapshot okClient pod3
    [([], some "late client")] none (by decide)

/-- C5: the termination signal of a creation call fires exactly once (the
deferred close runs once, on the error and nil return paths alike), and a
broadcaster that observes the termination signal emits exactly one final
snapshot of the terminal tracker state and then stops — every event after
the first termination signal is ignored. -/
theorem termination_fires_once_single_final_broadcast (c : Client)
    (pod : Pod) (ticks : List (List ImageFetch × Option String))
    (fe : Option String) (terminal : List ImageFetch)
    (pre : List BroadcastEvent) (e : Option String)
    (rest : List BroadcastEvent) (hpre : ∀ ev ∈ pre, ev.isDone = false) :
    (createCall c pod ticks fe).doneSignals = 1 ∧
    broadcasterRun terminal (pre ++ .done e :: rest) =
      broadcasterRun terminal pre ++
        [⟨mapImageFetchProgressToAPIModel terminal, e⟩] :=
  ⟨rfl, broadcasterRun_no_done_append terminal pre hpre e rest⟩

/-- Witness for C5 at a concrete input: after one tick and the
termination signal, two further events — a second termination signal and
a tick — produce no further emission. -/
theorem termination_fires_once_single_final_broadcast_witness :
    (createCall okClient pod1 [] none).doneSignals = 1 ∧
    broadcasterRun [] ([.tick [] none] ++
        .done none :: [.done (some "x"), .tick [] none]) =
      broadcasterRun [] [.tick [] none] ++
        [⟨mapImageFetchProgressToAPIModel [], none⟩] :=
  termination_fires_once_single_final_broadcast okClient pod1 [] none []
    [.tick [] none] none [.done (some "x"), .tick [] none] (by decide)

/-- C8: outcomes of the stream sends are absorbed by the broadcaster: the
return value of Create and the sequence of snapshot payloads are the same
for any pattern of send failures, and the broadcaster attempts one send
per tick plus the final one — it is not stopped by a failed send. -/
theorem broadcast_send_failure_absorbed (c : Client) (pod : Pod)
    (ticks ticks' : List (List ImageFetch × Option String))
    (fe fe' : Option String)
    (h : ticks.map Prod.fst = ticks'.map Prod.fst) :
    (createCall c pod ticks fe).result = (createCall c pod ticks' fe').result ∧
    (createCall c pod ticks fe).emissions.map Emission.payload =
      (createCall c pod ticks' fe').emissions.map Emission.payload ∧
    (createCall c pod ticks fe).emissions.length = ticks.length + 1 := by
  have h2 : ticks.map (fun t => mapImageFetchProgressToAPIModel t.1) =
      ticks'.map (fun t => mapImageFetchProgressToAPIModel t.1) := by
    have h2' := congrArg (List.map mapImageFetchProgressToAPIModel) h
    simpa [List.map_map, Function.comp] using h2'
  refine ⟨rfl, ?_, ?_⟩
  · simp only [createCall, broadcasterRun_ticks, List.map_append,
      List.map_map, List.map_cons, List.map_nil]
    rw [show (Emission.payload ∘ fun t : List ImageFetch × Option String =>
        Emission.mk (mapImageFetchProgressToAPIModel t.1) t.2) =
        (fun t : List ImageFetch × Option String =>
          mapImageFetchProgressToAPIModel t.1) from rfl, h2]
  · simp [createCall, broadcasterRun_ticks]

/-- Witness for C8 at a concrete input: one trace whose only tick and
final send both fail and one whose sends succeed give the same Create
result, the same payload sequence, and two send attempts. -/
theorem broadcast_send_failure_absorbed_witness :
    (createCall okClient pod1 [([], some "send failed")] (some "send failed")).result =
      (createCall okClient pod1 [([], none)] none).result ∧
    (createCall okClient pod1 [([], some "send failed")] (some "send failed")).emissions.map
        Emission.payload =
      (createCall okClient pod1 [([], none)] none).emissions.map Emission.payload ∧
    (createCall okClient pod1 [([], some "send failed")] (some "send failed")).emissions.length =
      [(([], some "send failed") : List ImageFetch × Option String)].length + 1 :=
  broadcast_send_failure_absorbed okClient pod1
    [([], some "send failed")] [([], none)] (some "send failed") none rfl

/-- C4 counterexample: metadata that carries the key "namespace" mapped
to an empty list of values — a value that is missing — makes the call
panic inside getMetadataValue instead of returning a descriptive error
(the provider is still never invoked). -/
theorem attach_missing_value_panics_counterexample :
    attachServer (some [("namespace", [])]) okClient = .panic ∧
    (attachServer (some [("namespace", [])]) okClient).isErr = false ∧
    (attachServer (some [("namespace", [])]) okClient).providerCalls = 0 :=
  ⟨rfl, rfl, rfl⟩

/-- C4 (amended): an Attach call whose incoming metadata is absent, or
whose "namespace" or "container" value resolves to the empty string (its
key absent, or its first value empty), returns one of the three
descriptive validation errors and never invokes the provider's attach
primitive; a key present with an empty value list instead panics, also
without invoking the provider. -/
theorem attach_validation_rejects (md? : Option MD) (c : Client)
    (h : md? = none ∨
      ∃ md nv cv, md? = some md ∧
        getMetadataValue md "namespace" = some nv ∧
        getMetadataValue md "container" = some cv ∧ (nv = "" ∨ cv = "")) :
    (attachServer md? c = .err noMetadataMsg ∨
     attachServer md? c = .err namespaceRequiredMsg ∨
     attachServer md? c = .err containerRequiredMsg) ∧
    (attachServer md? c).providerCalls = 0 := by
  rcases h with rfl | ⟨md, nv, cv, rfl, hn, hc, hnc⟩
  · exact ⟨Or.inl rfl, rfl⟩
  · rcases hnc with rfl | rfl
    · have hout : attachServer (some md) c = .err namespaceRequiredMsg := by
        simp [attachServer, hn, hc]
      exact ⟨Or.inr (Or.inl hout), by rw [hout]; rfl⟩
    · by_cases hnv : nv = ""
      · subst hnv
        have hout : attachServer (some md) c = .err namespaceRequiredMsg := by
          simp [attachServer, hn, hc]
        exact ⟨Or.inr (Or.inl hout), by rw [hout]; rfl⟩
      · have hout : attachServer (some md) c = .err containerRequiredMsg := by
          simp [attachServer, hn, hc, hnv]
        exact ⟨Or.inr (Or.inr hout), by rw [hout]; rfl⟩

/-- Witness for the amended C4 at a concrete input: a request without
metadata is rejected with the no-metadata error and the provider is never
invoked. -/
theorem attach_validation_rejects_witness :
    ((none : Option MD) = none ∨
      ∃ md nv cv, (none : Option MD) = some md ∧
        getMetadataValue md "namespace" = some nv ∧
        getMetadataValue md "container" = some cv ∧ (nv = "" ∨ cv = "")) ∧
    ((attachServer none okClient = .err noMetadataMsg ∨
      attachServer none okClient = .err namespaceRequiredMsg ∨
      attachServer none okClient = .err containerRequiredMsg) ∧
     (attachServer none okClient).providerCalls = 0) :=
  ⟨Or.inl rfl, attach_validation_rejects none okClient (Or.inl rfl)⟩

/-- C9: a valid Attach call hands the provider's attach primitive exactly
the bundle whose input source is the stream reader and whose two output
sinks are stream writers tagged false (process output) and true (process
error), and Attach's return value is exactly the provider's result. -/
theorem attach_channels_and_return (c : Client) (md : MD)
    (namespaceName containerID : String)
    (hn : getMetadataValue md "namespace" = some namespaceName)
    (hc : getMetadataValue md "container" = some containerID)
    (hn2 : namespaceName ≠ "") (hc2 : containerID ≠ "") :
    attachServer (some md) c =
      .attached namespaceName containerID
        (⟨.reader, .writer false, .writer true⟩ : AttachIO)
        (c.attach namespaceName containerID
          (⟨.reader, .writer false, .writer true⟩ : AttachIO)) := by
  simp [attachServer, hn, hc, hn2, hc2]

/-- Witness for C9 at a concrete input: metadata with namespace "ns1" and
container "c1" makes the call bind the reader and the two tagged writers
and return the provider's (nil) result. -/
theorem attach_channels_and_return_witness :
    getMetadataValue [("namespace", ["ns1"]), ("container", ["c1"])]
        "namespace" = some "ns1" ∧
    attachServer (some [("namespace", ["ns1"]), ("container", ["c1"])])
        okClient =
      .attached "ns1" "c1"
        (⟨.reader, .writer false, .writer true⟩ : AttachIO)
        (okClient.attach "ns1" "c1"
          (⟨.reader, .writer false, .writer true⟩ : AttachIO)) :=
  ⟨rfl, attach_channels_and_return okClient
    [("namespace", ["ns1"]), ("container", ["c1"])] "ns1" "c1" rfl rfl
    (by decide) (by decide)⟩

/-- C6 counterexample: 12345 maps to no recognized OS signal number, yet
the Signal call forwards it to the capability provider — no validation
precedes the forwarding. -/
theorem signal_unrecognized_forwarded_counterexample :
    recognizedSignal 12345 = false ∧
    (serverSignal okClient "ns1" "c1" 12345).calls =
      [.signal "ns1" "c1" 12345] :=
  ⟨by decide, rfl⟩

/-- C6 (amended): Signal applies no validation to the numeric signal
value: even a number that maps to no recognized OS signal is converted
and forwarded to the capability provider unchanged, with no rejection
before the provider call. -/
theorem signal_no_validation (c : Client) (ns cid : String) (sig : Int)
    (_h : recognizedSignal sig = false) :
    (serverSignal c ns cid sig).calls = [.signal ns cid sig] := rfl

/-- Witness for the amended C6 at a concrete input: the unrecognized
number 12345 still reaches the provider. -/
theorem signal_no_validation_witness :
    recognizedSignal 12345 = false ∧
    (serverSignal okClient "ns1" "c1" 12345).calls =
      [.signal "ns1" "c1" 12345] :=
  ⟨by decide, signal_no_validation okClient "ns1" "c1" 12345 (by decide)⟩

/-- C7: Signal forwards the namespace, the container identifier and the
numeric signal value to the capability provider without transformation,
and any provider error is returned to the caller unchanged. -/
theorem signal_forwarding_exact (c : Client) (ns cid : String) (sig : Int) :
    (serverSignal c ns cid sig).calls = [.signal ns cid sig] ∧
    (serverSignal c ns cid sig).error = c.signal ns cid sig :=
  ⟨rfl, rfl⟩

/-- C10: getMetadataValue reads val[0] without a bounds check, so a key
present with an empty list of values panics — embedded as none — and an
Attach call carrying such metadata panics instead of returning the
validation error, while a key that is entirely absent yields the empty
string. -/
theorem getMetadataValue_empty_value_panics :
    getMetadataValue [("namespace", ([] : List String))] "namespace" = none ∧
    attachServer (some [("namespace", []), ("container", ["c0"])]) okClient =
      .panic ∧
    getMetadataValue ([] : MD) "namespace" = some "" :=
  ⟨rfl, rfl, rfl⟩

end Eliot
